import Mathlib

/-!
Verification of the recurring-event modification-scope resolver of the
google-calendar-mcp repository.

Shallow embedding of:
  - src/schemas/validators.ts        (UpdateEventArgumentsSchema and its refinements)
  - src/handlers/core/UpdateEventHandler.ts
      (updateEventWithScope, updateSingleInstance, updateAllInstances,
       updateFutureInstances)

The helper module RecurringEventHelpers.ts is not part of the sources at hand
(only its import and call sites are); its operations are modelled from the
specification, each marked `Modelled from the spec:` in its doc comment.

Modelling conventions:
  - A date-time string that passed the ISO-with-timezone regex is abstracted by
    the instant it denotes, an integer timestamp (`DateTime := Int`); the
    JavaScript comparison `new Date(a) > new Date(b)` on such strings becomes
    integer `<`.
  - Optional request fields are `Option`s; a validated string field is non-empty
    (the regex forces at least one character), so JavaScript truthiness of such
    a field coincides with `Option.isSome`.
  - The Google Calendar service is an oracle (`Calendar`): one response function
    per API verb.  `Except.ok ev` stands for a successful response carrying
    `ev` as its data; every failure mode of a call (thrown error, missing
    response data) is an `Except.error`.
  - A run of a handler returns the list of API calls it issued, in order,
    together with its result (`List ApiCall × Except UpdateError GEvent`).
-/

/-- An instant: the timestamp denoted by a regex-valid ISO date-time string. -/
abbrev DateTime := Int

/-- The `modificationScope` enumeration of UpdateEventArgumentsSchema. -/
inductive ModificationScope
  | single
  | all
  | future
deriving DecidableEq, Repr

/-- The `sendUpdates` enumeration (`"all" | "externalOnly" | "none"`). -/
inductive SendUpdates
  | all
  | externalOnly
  | none
deriving DecidableEq, Repr

/-- One reminder override (ReminderSchema). -/
structure Reminder where
  method : String
  minutes : Int
deriving DecidableEq, Repr

/-- RemindersSchema. -/
structure Reminders where
  useDefault : Bool
  overrides : Option (List Reminder) := Option.none
deriving DecidableEq, Repr

/-- One attendee entry (an object with an email). -/
structure Attendee where
  email : String
deriving DecidableEq, Repr

/-- A Google Calendar event time: `\x7b dateTime, timeZone \x7d`. -/
structure EventDateTime where
  dateTime : Option DateTime := Option.none
  timeZone : Option String := Option.none
deriving DecidableEq, Repr

/-- The service's event representation (`calendar_v3.Schema$Event`), restricted
to the fields the resolver reads or writes. -/
structure GEvent where
  id : Option String := Option.none
  summary : Option String := Option.none
  description : Option String := Option.none
  location : Option String := Option.none
  colorId : Option String := Option.none
  start : Option EventDateTime := Option.none
  end_ : Option EventDateTime := Option.none
  attendees : Option (List Attendee) := Option.none
  reminders : Option Reminders := Option.none
  recurrence : Option (List String) := Option.none
  recurringEventId : Option String := Option.none
deriving DecidableEq, Repr

/-- The update-event argument object after the base object parse of
UpdateEventArgumentsSchema (field types and regexes already enforced) but
before the `.default("all")` of `modificationScope` and before the three
`.refine` steps. -/
structure RawUpdateEventArgs where
  calendarId : String
  eventId : String
  summary : Option String := Option.none
  description : Option String := Option.none
  start : Option DateTime := Option.none
  end_ : Option DateTime := Option.none
  timeZone : String
  attendees : Option (List Attendee) := Option.none
  location : Option String := Option.none
  colorId : Option String := Option.none
  reminders : Option Reminders := Option.none
  recurrence : Option (List String) := Option.none
  modificationScope : Option ModificationScope := Option.none
  originalStartTime : Option DateTime := Option.none
  futureStartDate : Option DateTime := Option.none
  sendUpdates : Option SendUpdates := Option.none
deriving DecidableEq, Repr

/-- The validated argument object (`z.infer<typeof UpdateEventArgumentsSchema>`):
`modificationScope` has received its default. -/
structure UpdateEventArgs where
  calendarId : String
  eventId : String
  summary : Option String := Option.none
  description : Option String := Option.none
  start : Option DateTime := Option.none
  end_ : Option DateTime := Option.none
  timeZone : String
  attendees : Option (List Attendee) := Option.none
  location : Option String := Option.none
  colorId : Option String := Option.none
  reminders : Option Reminders := Option.none
  recurrence : Option (List String) := Option.none
  modificationScope : ModificationScope
  originalStartTime : Option DateTime := Option.none
  futureStartDate : Option DateTime := Option.none
  sendUpdates : Option SendUpdates := Option.none
deriving DecidableEq, Repr

/-- The `.default("all")` applied to `modificationScope` by the schema
(validators.ts line 170). -/
def applyUpdateDefaults (r : RawUpdateEventArgs) : UpdateEventArgs :=
  { calendarId := r.calendarId
    eventId := r.eventId
    summary := r.summary
    description := r.description
    start := r.start
    end_ := r.end_
    timeZone := r.timeZone
    attendees := r.attendees
    location := r.location
    colorId := r.colorId
    reminders := r.reminders
    recurrence := r.recurrence
    modificationScope := r.modificationScope.getD ModificationScope.all
    originalStartTime := r.originalStartTime
    futureStartDate := r.futureStartDate
    sendUpdates := r.sendUpdates }

/-- First refinement (validators.ts lines 192-205): require `originalStartTime`
when `modificationScope` is `single`. -/
def refineSingleScope (d : UpdateEventArgs) : Bool :=
  !(decide (d.modificationScope = ModificationScope.single ∧
            d.originalStartTime = Option.none))

/-- Second refinement (validators.ts lines 206-218): require `futureStartDate`
when `modificationScope` is `future`. -/
def refineFutureScope (d : UpdateEventArgs) : Bool :=
  !(decide (d.modificationScope = ModificationScope.future ∧
            d.futureStartDate = Option.none))

/-- Third refinement (validators.ts lines 219-233): whenever `futureStartDate`
is provided, `new Date(futureStartDate) > new Date()` must hold. -/
def refineFutureBound (now : DateTime) (d : UpdateEventArgs) : Bool :=
  match d.futureStartDate with
  | Option.some f => decide (now < f)
  | Option.none => true

/-- One validation issue per failing refinement (zod collects them all). -/
inductive ValidationIssue
  | missingOriginalStartTime
  | missingFutureStartDate
  | futureStartDateNotInFuture
deriving DecidableEq, Repr

/-- UpdateEventArgumentsSchema.parse on an object whose base parse succeeded:
apply the default, run the three refinements (zod runs every chained
refinement, collecting issues), fail iff any issue was recorded.  `now` is the
clock read by the third refinement. -/
def UpdateEventArgumentsSchema (now : DateTime) (r : RawUpdateEventArgs) :
    Except (List ValidationIssue) UpdateEventArgs :=
  let d := applyUpdateDefaults r
  let issues :=
    (if refineSingleScope d then [] else [ValidationIssue.missingOriginalStartTime]) ++
    (if refineFutureScope d then [] else [ValidationIssue.missingFutureStartDate]) ++
    (if refineFutureBound now d then [] else [ValidationIssue.futureStartDateNotInFuture])
  if issues.isEmpty then Except.ok d else Except.error issues

/-- True iff UpdateEventArgumentsSchema rejects the request. -/
def validationRejects (now : DateTime) (r : RawUpdateEventArgs) : Bool :=
  match UpdateEventArgumentsSchema now r with
  | Except.error _ => true
  | Except.ok _ => false

/-- Classification of an update/delete target. -/
inductive EventType
  | single
  | recurring
  | instance_
deriving DecidableEq, Repr

/-- Modelled from the spec: RecurringEventHelpers.detectEventType is not in the
sources at hand.  Classification of a fetched event (§4.2): a non-empty
repeat-rule list means `recurring`, otherwise a master back-reference means
`instance`, otherwise `single`. -/
def detectEventType (ev : GEvent) : EventType :=
  if (ev.recurrence.getD []).isEmpty = false then EventType.recurring
  else if ev.recurringEventId.isSome then EventType.instance_
  else EventType.single

/-- Modelled from the spec: RecurringEventHelpers.formatInstanceId is not in
the sources at hand.  A pure, deterministic combination of the series id with
the normalized original start time (§4.4); the normalization of the start is
abstracted as its printed instant. -/
def formatInstanceId (eventId : String) (originalStartTime : DateTime) : String :=
  eventId ++ "_" ++ toString originalStartTime

/-- Modelled from the spec: RecurringEventHelpers.calculateUntilDate is not in
the sources at hand.  The cutoff is the instant immediately preceding the
future start: one second (1000 ms) earlier (§4.3; the date-only one-day case is
subsumed by the instant abstraction). -/
def calculateUntilDate (futureStartDate : DateTime) : DateTime :=
  futureStartDate - 1000

/-- Modelled from the spec: drop an existing termination bound (a COUNT= or
UNTIL= clause) from the clauses of a repeat rule (§4.3). -/
def stripTerminationBound (clauses : List String) : List String :=
  clauses.filter (fun c => !(c.startsWith "COUNT=" || c.startsWith "UNTIL="))

/-- Modelled from the spec: RecurringEventHelpers.updateRecurrenceWithUntil is
not in the sources at hand.  Rewrite the rule carrying the frequency clause
(the RRULE) to end at the cutoff: strip any COUNT/UNTIL bound and append an
UNTIL bound at the cutoff; every other rule passes through verbatim (§4.3).
The cutoff's compact textual form is abstracted as its printed instant. -/
def updateRecurrenceWithUntil (recurrence : List String) (untilDate : DateTime) :
    List String :=
  recurrence.map (fun r =>
    if r.startsWith "RRULE:" then
      "RRULE:" ++ String.intercalate ";"
        (stripTerminationBound ((r.drop 6).splitOn ";") ++ ["UNTIL=" ++ toString untilDate])
    else r)

/-- Modelled from the spec: RecurringEventHelpers.calculateEndTime is not in
the sources at hand.  estimateDuration/projectEnd (§4.4): duration is the
original event's end minus start, the projected end is the new start plus that
duration.  A missing dateTime reads as instant 0 (the spec assumes both bounds
are present on the original event). -/
def calculateEndTime (newStartTime : DateTime) (originalEvent : GEvent) : DateTime :=
  let s := (originalEvent.start.bind EventDateTime.dateTime).getD 0
  let e := (originalEvent.end_.bind EventDateTime.dateTime).getD 0
  newStartTime + (e - s)

/-- Modelled from the spec: RecurringEventHelpers.cleanEventForDuplication is
not in the sources at hand.  Clone the duplication-relevant fields of the
original, excluding its identifier and any back-references (§4.5 step c). -/
def cleanEventForDuplication (ev : GEvent) : GEvent :=
  { ev with id := Option.none, recurringEventId := Option.none }

/-- Modelled from the spec: RecurringEventHelpers.buildUpdateRequestBody is not
in the sources at hand.  The overlay of the caller's provided field changes: a
request body holding exactly the optional fields the caller supplied (time
bounds paired with the mandatory timeZone). -/
def buildUpdateRequestBody (args : UpdateEventArgs) : GEvent :=
  { id := Option.none
    summary := args.summary
    description := args.description
    location := args.location
    colorId := args.colorId
    start := args.start.map (fun s =>
      { dateTime := Option.some s, timeZone := Option.some args.timeZone })
    end_ := args.end_.map (fun e =>
      { dateTime := Option.some e, timeZone := Option.some args.timeZone })
    attendees := args.attendees
    reminders := args.reminders
    recurrence := args.recurrence
    recurringEventId := Option.none }

/-- JavaScript object-spread on one field: an overlay key that is present wins
over the base. -/
def mergeField (base overlay : Option α) : Option α :=
  match overlay with
  | Option.some v => Option.some v
  | Option.none => base

/-- JavaScript object-spread of two event bodies, field by field. -/
def mergeEvents (base overlay : GEvent) : GEvent :=
  { id := mergeField base.id overlay.id
    summary := mergeField base.summary overlay.summary
    description := mergeField base.description overlay.description
    location := mergeField base.location overlay.location
    colorId := mergeField base.colorId overlay.colorId
    start := mergeField base.start overlay.start
    end_ := mergeField base.end_ overlay.end_
    attendees := mergeField base.attendees overlay.attendees
    reminders := mergeField base.reminders overlay.reminders
    recurrence := mergeField base.recurrence overlay.recurrence
    recurringEventId := mergeField base.recurringEventId overlay.recurringEventId }

/-- A structured service-level failure (§6); its shape is irrelevant to the
resolver, which passes it through. -/
inductive ApiError
  | notFound
  | permissionDenied
  | rateLimited
  | malformedRequest
  | other (status : Int) (message : String)
deriving DecidableEq, Repr

/-- One API call issued to the calendar service, with the parameters the code
passes.  `events.get` is issued with calendarId and eventId only (no
sendUpdates parameter exists on the call). -/
inductive ApiCall
  | get (calendarId eventId : String)
  | patch (calendarId eventId : String) (requestBody : GEvent)
      (sendUpdates : Option SendUpdates)
  | insert (calendarId : String) (requestBody : GEvent)
      (sendUpdates : Option SendUpdates)
deriving DecidableEq, Repr

/-- The sendUpdates parameter a call was issued with; a get carries none. -/
def ApiCall.sendUpdatesParam : ApiCall → Option SendUpdates
  | ApiCall.get _ _ => Option.none
  | ApiCall.patch _ _ _ su => su
  | ApiCall.insert _ _ su => su

/-- Whether a call mutates the calendar (patch or insert, as opposed to get). -/
def ApiCall.isMutating : ApiCall → Bool
  | ApiCall.get _ _ => false
  | ApiCall.patch _ _ _ _ => true
  | ApiCall.insert _ _ _ => true

/-- The calendar service as a response oracle: what each call would return.
`Except.ok` is a successful response carrying data; any thrown error or
missing response data is `Except.error`. -/
structure Calendar where
  getResult : String → String → Except ApiError GEvent
  patchResult : String → String → GEvent → Except ApiError GEvent
  insertResult : String → GEvent → Except ApiError GEvent

/-- The errors UpdateEventHandler can raise.  `nonRecurringScope` is the
RecurringEventError with code NON_RECURRING_SCOPE (the spec's
ScopeMismatchError); `upstream` wraps a service failure
(handleGoogleApiError). -/
inductive UpdateError
  | nonRecurringScope
  | invalidScope
  | missingOriginalTime
  | missingFutureDate
  | noRecurrenceRules
  | upstream (e : ApiError)
deriving DecidableEq, Repr

/-- The request body of the truncation patch of updateFutureInstances
(UpdateEventHandler.ts lines 148-153): an object holding exactly the rewritten
recurrence rule set. -/
def futureTruncationBody (fsd : DateTime) (recurrence : List String) : GEvent :=
  { recurrence := Option.some (updateRecurrenceWithUntil recurrence (calculateUntilDate fsd)) }

/-- `args.start || args.futureStartDate` of updateFutureInstances (line 161):
the caller's start when supplied, the future start date otherwise. -/
def futureNewStartTime (args : UpdateEventArgs) (fsd : DateTime) : DateTime :=
  args.start.getD fsd

/-- The `endTime` computation of updateFutureInstances (lines 159-164):
initially `args.end`; when a start or future start is present it becomes
`args.end` if supplied, the projected end otherwise. -/
def futureEndTime (args : UpdateEventArgs) (fsd : DateTime) (originalEvent : GEvent) :
    Option DateTime :=
  if args.start.isSome || args.futureStartDate.isSome then
    Option.some (args.end_.getD (calculateEndTime (futureNewStartTime args fsd) originalEvent))
  else args.end_

/-- The `newEvent` of updateFutureInstances (lines 166-177): spread of the
cleaned original, then of the caller's request body, then explicit `start` and
`end` objects (which therefore always win). -/
def futureNewEvent (args : UpdateEventArgs) (fsd : DateTime) (originalEvent : GEvent) :
    GEvent :=
  { mergeEvents (cleanEventForDuplication originalEvent) (buildUpdateRequestBody args) with
    start := Option.some
      { dateTime := Option.some (futureNewStartTime args fsd)
        timeZone := Option.some args.timeZone }
    end_ := Option.some
      { dateTime := futureEndTime args fsd originalEvent
        timeZone := Option.some args.timeZone } }

/-- UpdateEventHandler.updateSingleInstance (lines 72-98): defensive check for
`originalStartTime`, then one patch against the computed instance id. -/
def updateSingleInstance (cal : Calendar) (args : UpdateEventArgs) :
    List ApiCall × Except UpdateError GEvent :=
  match args.originalStartTime with
  | Option.none => ([], Except.error UpdateError.missingOriginalTime)
  | Option.some ost =>
    let instanceId := formatInstanceId args.eventId ost
    let body := buildUpdateRequestBody args
    let call := ApiCall.patch args.calendarId instanceId body args.sendUpdates
    match cal.patchResult args.calendarId instanceId body with
    | Except.ok ev => ([call], Except.ok ev)
    | Except.error e => ([call], Except.error (UpdateError.upstream e))

/-- UpdateEventHandler.updateAllInstances (lines 100-115): one patch against
the event id as given. -/
def updateAllInstances (cal : Calendar) (args : UpdateEventArgs) :
    List ApiCall × Except UpdateError GEvent :=
  let body := buildUpdateRequestBody args
  let call := ApiCall.patch args.calendarId args.eventId body args.sendUpdates
  match cal.patchResult args.calendarId args.eventId body with
  | Except.ok ev => ([call], Except.ok ev)
  | Except.error e => ([call], Except.error (UpdateError.upstream e))

/-- UpdateEventHandler.updateFutureInstances (lines 117-187): defensive check
for `futureStartDate`; fetch the original; require recurrence rules; patch the
original with the truncated rule set; insert the new event.  Any failing call
aborts the sequence there, wrapped as an upstream error. -/
def updateFutureInstances (cal : Calendar) (args : UpdateEventArgs) :
    List ApiCall × Except UpdateError GEvent :=
  match args.futureStartDate with
  | Option.none => ([], Except.error UpdateError.missingFutureDate)
  | Option.some fsd =>
    let getCall := ApiCall.get args.calendarId args.eventId
    match cal.getResult args.calendarId args.eventId with
    | Except.error e => ([getCall], Except.error (UpdateError.upstream e))
    | Except.ok originalEvent =>
      match originalEvent.recurrence with
      | Option.none => ([getCall], Except.error UpdateError.noRecurrenceRules)
      | Option.some recurrenceRules =>
        let truncBody := futureTruncationBody fsd recurrenceRules
        let patchCall := ApiCall.patch args.calendarId args.eventId truncBody args.sendUpdates
        match cal.patchResult args.calendarId args.eventId truncBody with
        | Except.error e => ([getCall, patchCall], Except.error (UpdateError.upstream e))
        | Except.ok _ =>
          let newEvent := futureNewEvent args fsd originalEvent
          let insertCall := ApiCall.insert args.calendarId newEvent args.sendUpdates
          match cal.insertResult args.calendarId newEvent with
          | Except.ok ev => ([getCall, patchCall, insertCall], Except.ok ev)
          | Except.error e =>
            ([getCall, patchCall, insertCall], Except.error (UpdateError.upstream e))

/-- UpdateEventHandler.updateEventWithScope (lines 30-70), after the event type
has been classified: the scope-mismatch guard (lines 44-49) rejects any
non-`all` scope against a target not classified `recurring`; otherwise
dispatch by scope.  The `default` arm of the switch is unreachable on the
closed enumeration. -/
def updateEventWithScope (cal : Calendar) (eventType : EventType)
    (args : UpdateEventArgs) : List ApiCall × Except UpdateError GEvent :=
  if args.modificationScope ≠ ModificationScope.all ∧ eventType ≠ EventType.recurring then
    ([], Except.error UpdateError.nonRecurringScope)
  else
    match args.modificationScope with
    | ModificationScope.single => updateSingleInstance cal args
    | ModificationScope.all => updateAllInstances cal args
    | ModificationScope.future => updateFutureInstances cal args

/-! Concrete fixtures used to evaluate the development on closed inputs. -/

/-- A fixed successful response event. -/
def okEvent : GEvent := { id := Option.some "ev1", summary := Option.some "Standup" }

/-- A recurring master event: weekly, twenty occurrences, one hour long
(start instant 1000, end instant 4600). -/
def origEventFix : GEvent :=
  { id := Option.some "ev1"
    summary := Option.some "Standup"
    location := Option.some "Room 1"
    recurrence := Option.some ["RRULE:FREQ=WEEKLY;COUNT=20"]
    start := Option.some { dateTime := Option.some 1000, timeZone := Option.some "UTC" }
    end_ := Option.some { dateTime := Option.some 4600, timeZone := Option.some "UTC" } }

/-- An oracle on which every call succeeds; a get returns `origEventFix`. -/
def calOk : Calendar :=
  { getResult := fun _ _ => Except.ok origEventFix
    patchResult := fun _ _ _ => Except.ok okEvent
    insertResult := fun _ _ => Except.ok okEvent }

/-- The same oracle with a failing insert. -/
def calInsertFail : Calendar :=
  { calOk with insertResult := fun _ _ => Except.error ApiError.rateLimited }

/-- A validated single-scope command carrying its original start time. -/
def argsSingleI : UpdateEventArgs :=
  { calendarId := "primary", eventId := "ev1", timeZone := "UTC"
    modificationScope := ModificationScope.single
    originalStartTime := Option.some 5000 }

/-- A validated future-scope command that also carries a caller start, a
notification setting and no caller end. -/
def argsFut : UpdateEventArgs :=
  { calendarId := "primary", eventId := "ev1", timeZone := "UTC"
    modificationScope := ModificationScope.future
    start := Option.some 100000
    futureStartDate := Option.some 200000
    sendUpdates := Option.some SendUpdates.all }

/-- A validated all-scope command with a notification setting. -/
def argsAllW : UpdateEventArgs :=
  { calendarId := "primary", eventId := "ev1", timeZone := "UTC"
    modificationScope := ModificationScope.all
    sendUpdates := Option.some SendUpdates.externalOnly }

/-- A raw single-scope request carrying its original start time together with a
stale future start date (instant 10). -/
def rawSingleStale : RawUpdateEventArgs :=
  { calendarId := "primary", eventId := "ev1", timeZone := "UTC"
    modificationScope := Option.some ModificationScope.single
    originalStartTime := Option.some 5
    futureStartDate := Option.some 10 }

/-- A raw future-scope request with no future start date. -/
def rawFutureMissing : RawUpdateEventArgs :=
  { calendarId := "primary", eventId := "ev1", timeZone := "UTC"
    modificationScope := Option.some ModificationScope.future }

/-- A raw single-scope request with no original start time. -/
def rawSingleMissing : RawUpdateEventArgs :=
  { calendarId := "primary", eventId := "ev1", timeZone := "UTC"
    modificationScope := Option.some ModificationScope.single }

/-- A raw all-scope request carrying a stale future start date. -/
def rawAllStale : RawUpdateEventArgs :=
  { calendarId := "primary", eventId := "ev1", timeZone := "UTC"
    modificationScope := Option.some ModificationScope.all
    futureStartDate := Option.some 10 }

/-- A raw request that omits modificationScope entirely. -/
def rawDefaultScope : RawUpdateEventArgs :=
  { calendarId := "primary", eventId := "ev1", timeZone := "UTC" }

/-! Helper lemmas shared by the claim theorems. -/

theorem refineSingleScope_false_iff (d : UpdateEventArgs) :
    refineSingleScope d = false ↔
      (d.modificationScope = ModificationScope.single ∧ d.originalStartTime = Option.none) := by
  simp [refineSingleScope]

theorem refineFutureScope_false_iff (d : UpdateEventArgs) :
    refineFutureScope d = false ↔
      (d.modificationScope = ModificationScope.future ∧ d.futureStartDate = Option.none) := by
  simp [refineFutureScope]

theorem refineFutureBound_false_iff (now : DateTime) (d : UpdateEventArgs) :
    refineFutureBound now d = false ↔
      ∃ f, d.futureStartDate = Option.some f ∧ f ≤ now := by
  unfold refineFutureBound
  cases h : d.futureStartDate <;> simp [h, not_lt]

theorem validationRejects_iff (now : DateTime) (r : RawUpdateEventArgs) :
    validationRejects now r = true ↔
      (refineSingleScope (applyUpdateDefaults r) = false ∨
       refineFutureScope (applyUpdateDefaults r) = false ∨
       refineFutureBound now (applyUpdateDefaults r) = false) := by
  unfold validationRejects UpdateEventArgumentsSchema
  cases h1 : refineSingleScope (applyUpdateDefaults r) <;>
    cases h2 : refineFutureScope (applyUpdateDefaults r) <;>
      cases h3 : refineFutureBound now (applyUpdateDefaults r) <;>
        simp [h1, h2, h3]

theorem updateSchema_ok_iff (now : DateTime) (r : RawUpdateEventArgs) (d : UpdateEventArgs) :
    UpdateEventArgumentsSchema now r = Except.ok d ↔
      (applyUpdateDefaults r = d ∧
       refineSingleScope (applyUpdateDefaults r) = true ∧
       refineFutureScope (applyUpdateDefaults r) = true ∧
       refineFutureBound now (applyUpdateDefaults r) = true) := by
  unfold UpdateEventArgumentsSchema
  cases h1 : refineSingleScope (applyUpdateDefaults r) <;>
    cases h2 : refineFutureScope (applyUpdateDefaults r) <;>
      cases h3 : refineFutureBound now (applyUpdateDefaults r) <;>
        simp [h1, h2, h3]

theorem updateSingleInstance_snd_ne_mismatch (cal : Calendar) (args : UpdateEventArgs) :
    (updateSingleInstance cal args).2 ≠ Except.error UpdateError.nonRecurringScope := by
  unfold updateSingleInstance
  split
  · simp
  · try dsimp only
    split <;> simp

theorem updateAllInstances_snd_ne_mismatch (cal : Calendar) (args : UpdateEventArgs) :
    (updateAllInstances cal args).2 ≠ Except.error UpdateError.nonRecurringScope := by
  unfold updateAllInstances
  try dsimp only
  split <;> simp

theorem updateFutureInstances_snd_ne_mismatch (cal : Calendar) (args : UpdateEventArgs) :
    (updateFutureInstances cal args).2 ≠ Except.error UpdateError.nonRecurringScope := by
  unfold updateFutureInstances
  split
  · simp
  · try dsimp only
    split
    · simp
    · split
      · simp
      · try dsimp only
        split
        · simp
        · try dsimp only
          split <;> simp

theorem updateSingleInstance_snd_ne_missingFuture (cal : Calendar) (args : UpdateEventArgs) :
    (updateSingleInstance cal args).2 ≠ Except.error UpdateError.missingFutureDate := by
  unfold updateSingleInstance
  split
  · simp
  · try dsimp only
    split <;> simp

theorem updateAllInstances_snd_ne_missing (cal : Calendar) (args : UpdateEventArgs) :
    (updateAllInstances cal args).2 ≠ Except.error UpdateError.missingOriginalTime ∧
    (updateAllInstances cal args).2 ≠ Except.error UpdateError.missingFutureDate := by
  unfold updateAllInstances
  try dsimp only
  split <;> simp

theorem updateFutureInstances_snd_ne_missingOriginal (cal : Calendar) (args : UpdateEventArgs) :
    (updateFutureInstances cal args).2 ≠ Except.error UpdateError.missingOriginalTime := by
  unfold updateFutureInstances
  split
  · simp
  · try dsimp only
    split
    · simp
    · split
      · simp
      · try dsimp only
        split
        · simp
        · try dsimp only
          split <;> simp

theorem updateSingleInstance_some_ne_missing (cal : Calendar) (args : UpdateEventArgs)
    (ost : DateTime) (h : args.originalStartTime = Option.some ost) :
    (updateSingleInstance cal args).2 ≠ Except.error UpdateError.missingOriginalTime := by
  unfold updateSingleInstance
  rw [h]
  try dsimp only
  split <;> simp

theorem updateFutureInstances_some_ne_missing (cal : Calendar) (args : UpdateEventArgs)
    (fsd : DateTime) (h : args.futureStartDate = Option.some fsd) :
    (updateFutureInstances cal args).2 ≠ Except.error UpdateError.missingFutureDate := by
  unfold updateFutureInstances
  rw [h]
  try dsimp only
  split
  · simp
  · split
    · simp
    · try dsimp only
      split
      · simp
      · try dsimp only
        split <;> simp


theorem updateSingleInstance_sendUpdates (cal : Calendar) (args : UpdateEventArgs)
    (c : ApiCall) (hc : c ∈ (updateSingleInstance cal args).1)
    (hm : c.isMutating = true) :
    c.sendUpdatesParam = args.sendUpdates := by
  unfold updateSingleInstance at hc
  split at hc
  · simp at hc
  · try dsimp only at hc
    split at hc <;> simp at hc <;> subst hc <;> rfl

theorem updateAllInstances_sendUpdates (cal : Calendar) (args : UpdateEventArgs)
    (c : ApiCall) (hc : c ∈ (updateAllInstances cal args).1)
    (hm : c.isMutating = true) :
    c.sendUpdatesParam = args.sendUpdates := by
  unfold updateAllInstances at hc
  try dsimp only at hc
  split at hc <;> simp at hc <;> subst hc <;> rfl

theorem updateFutureInstances_sendUpdates (cal : Calendar) (args : UpdateEventArgs)
    (c : ApiCall) (hc : c ∈ (updateFutureInstances cal args).1)
    (hm : c.isMutating = true) :
    c.sendUpdatesParam = args.sendUpdates := by
  unfold updateFutureInstances at hc
  split at hc
  · simp at hc
  · try dsimp only at hc
    split at hc
    · simp at hc
      subst hc
      simp [ApiCall.isMutating] at hm
    · split at hc
      · simp at hc
        subst hc
        simp [ApiCall.isMutating] at hm
      · try dsimp only at hc
        split at hc
        · simp [List.mem_cons] at hc
          rcases hc with rfl | rfl
          · simp [ApiCall.isMutating] at hm
          · rfl
        · try dsimp only at hc
          split at hc <;> simp [List.mem_cons] at hc <;>
            rcases hc with rfl | rfl | rfl
          · simp [ApiCall.isMutating] at hm
          · rfl
          · rfl
          · simp [ApiCall.isMutating] at hm
          · rfl
          · rfl

/-! Claim theorems. -/

/-- Claim C1, counterexample: a validated single-scope command whose target
classifies as `instance` (an occurrence of a series) IS rejected by the scope
guard with the scope-mismatch error, because the guard at
UpdateEventHandler.ts line 44 only admits the classified type `recurring` for
non-`all` scopes — contradicting the claim that such a command is not rejected
for scope mismatch. -/
theorem scope_guard_rejects_instance_cex :
    argsSingleI.modificationScope = ModificationScope.single ∧
    updateEventWithScope calOk EventType.instance_ argsSingleI =
      ([], Except.error UpdateError.nonRecurringScope) :=
  ⟨rfl, rfl⟩

/-- Claim C1, amended: for every validated update command, the scope resolver
rejects the request with the scope-mismatch error if and only if the
modification scope is not `all` and the classified event type is not
`recurring`; a target classified `instance` is rejected like a
non-recurring one. -/
theorem scope_guard_mismatch_iff (cal : Calendar) (t : EventType) (args : UpdateEventArgs) :
    (updateEventWithScope cal t args).2 = Except.error UpdateError.nonRecurringScope ↔
      (args.modificationScope ≠ ModificationScope.all ∧ t ≠ EventType.recurring) := by
  unfold updateEventWithScope
  by_cases hg : args.modificationScope ≠ ModificationScope.all ∧ t ≠ EventType.recurring
  · rw [if_pos hg]
    exact iff_of_true rfl hg
  · rw [if_neg hg]
    constructor
    · intro h
      exfalso
      cases hs : args.modificationScope <;> rw [hs] at h <;> try dsimp only at h
      · exact updateSingleInstance_snd_ne_mismatch cal args h
      · exact updateAllInstances_snd_ne_mismatch cal args h
      · exact updateFutureInstances_snd_ne_mismatch cal args h
    · intro h
      exact absurd h hg

/-- Claim C2, counterexample: in a future-scope update whose caller also
supplies `start`, the newly inserted event's start is the caller-supplied
start (instant 100000), not `futureStartDate` (instant 200000) — the code
sets the new start to `args.start || args.futureStartDate`
(UpdateEventHandler.ts line 170), contradicting the claim that the start is
set to `futureStartDate`. -/
theorem future_insert_start_cex :
    argsFut.futureStartDate = Option.some 200000 ∧
    argsFut.start = Option.some 100000 ∧
    ((updateFutureInstances calOk argsFut).1).getLast? =
      Option.some (ApiCall.insert "primary" (futureNewEvent argsFut 200000 origEventFix)
        (Option.some SendUpdates.all)) ∧
    (futureNewEvent argsFut 200000 origEventFix).start =
      Option.some { dateTime := Option.some 100000, timeZone := Option.some "UTC" } ∧
    (100000 : DateTime) ≠ 200000 :=
  ⟨rfl, rfl, rfl, rfl, by decide⟩

/-- Claim C2, amended: for every future-scope update that reaches the
insertion step, the inserted event's start is the caller-supplied start when
one is given and `futureStartDate` otherwise, and its end is the
caller-supplied end when one is given, otherwise the projected end equal to
that new start plus the original event's duration (original end minus
original start). -/
theorem future_insert_start_end (cal : Calendar) (args : UpdateEventArgs)
    (fsd : DateTime) (ev pev : GEvent) (rules : List String) (os oe : DateTime)
    (hfsd : args.futureStartDate = Option.some fsd)
    (hget : cal.getResult args.calendarId args.eventId = Except.ok ev)
    (hrec : ev.recurrence = Option.some rules)
    (hos : ev.start.bind EventDateTime.dateTime = Option.some os)
    (hoe : ev.end_.bind EventDateTime.dateTime = Option.some oe)
    (hpatch : cal.patchResult args.calendarId args.eventId (futureTruncationBody fsd rules) =
      Except.ok pev) :
    ((updateFutureInstances cal args).1).getLast? =
      Option.some (ApiCall.insert args.calendarId (futureNewEvent args fsd ev)
        args.sendUpdates) ∧
    (futureNewEvent args fsd ev).start = Option.some
      { dateTime := Option.some (args.start.getD fsd)
        timeZone := Option.some args.timeZone } ∧
    (futureNewEvent args fsd ev).end_ = Option.some
      { dateTime := Option.some (args.end_.getD (args.start.getD fsd + (oe - os)))
        timeZone := Option.some args.timeZone } := by
  refine ⟨?_, rfl, ?_⟩
  · unfold updateFutureInstances
    rw [hfsd]
    try dsimp only
    rw [hget]
    try dsimp only
    rw [hrec]
    try dsimp only
    rw [hpatch]
    try dsimp only
    split <;> simp
  · unfold futureNewEvent futureEndTime calculateEndTime futureNewStartTime
    rw [hos, hoe, hfsd]
    simp

/-- Claim C2, witness: the amended theorem applied to the concrete fixture
run (caller start 100000, future start 200000, original duration 3600). -/
theorem future_insert_start_end_app :
    ((updateFutureInstances calOk argsFut).1).getLast? =
      Option.some (ApiCall.insert argsFut.calendarId
        (futureNewEvent argsFut 200000 origEventFix) argsFut.sendUpdates) ∧
    (futureNewEvent argsFut 200000 origEventFix).start = Option.some
      { dateTime := Option.some (argsFut.start.getD 200000)
        timeZone := Option.some argsFut.timeZone } ∧
    (futureNewEvent argsFut 200000 origEventFix).end_ = Option.some
      { dateTime := Option.some (argsFut.end_.getD (argsFut.start.getD 200000 + (4600 - 1000)))
        timeZone := Option.some argsFut.timeZone } :=
  future_insert_start_end calOk argsFut 200000 origEventFix okEvent
    ["RRULE:FREQ=WEEKLY;COUNT=20"] 1000 4600 rfl rfl rfl rfl rfl rfl

/-- Claim C3: if, during a future-scope update, the insertion fails after the
truncation patch was issued and succeeded, the upstream error is propagated
and the call sequence is exactly fetch, truncation patch, failed insert — no
further call is issued, in particular no compensating patch reverting the
truncation. -/
theorem future_split_insert_failure_no_rollback (cal : Calendar) (args : UpdateEventArgs)
    (fsd : DateTime) (ev pev : GEvent) (rules : List String) (e : ApiError)
    (hfsd : args.futureStartDate = Option.some fsd)
    (hget : cal.getResult args.calendarId args.eventId = Except.ok ev)
    (hrec : ev.recurrence = Option.some rules)
    (hpatch : cal.patchResult args.calendarId args.eventId (futureTruncationBody fsd rules) =
      Except.ok pev)
    (hins : cal.insertResult args.calendarId (futureNewEvent args fsd ev) =
      Except.error e) :
    updateFutureInstances cal args =
      ([ApiCall.get args.calendarId args.eventId,
        ApiCall.patch args.calendarId args.eventId (futureTruncationBody fsd rules)
          args.sendUpdates,
        ApiCall.insert args.calendarId (futureNewEvent args fsd ev) args.sendUpdates],
       Except.error (UpdateError.upstream e)) := by
  unfold updateFutureInstances
  rw [hfsd]
  try dsimp only
  rw [hget]
  try dsimp only
  rw [hrec]
  try dsimp only
  rw [hpatch]
  try dsimp only
  rw [hins]

/-- Claim C3, witness: on an oracle whose insert is rate-limited, the fixture
run truncates the series, fails on insertion, and surfaces the upstream
error with no further call. -/
theorem future_split_insert_failure_no_rollback_app :
    updateFutureInstances calInsertFail argsFut =
      ([ApiCall.get argsFut.calendarId argsFut.eventId,
        ApiCall.patch argsFut.calendarId argsFut.eventId
          (futureTruncationBody 200000 ["RRULE:FREQ=WEEKLY;COUNT=20"]) argsFut.sendUpdates,
        ApiCall.insert argsFut.calendarId (futureNewEvent argsFut 200000 origEventFix)
          argsFut.sendUpdates],
       Except.error (UpdateError.upstream ApiError.rateLimited)) :=
  future_split_insert_failure_no_rollback calInsertFail argsFut 200000 origEventFix okEvent
    ["RRULE:FREQ=WEEKLY;COUNT=20"] ApiError.rateLimited rfl rfl rfl rfl rfl

/-- Claim C4: in the future-scope split, the truncation patch (the second call
of the sequence) carries a request body containing only the rewritten
recurrence rule set; every other field of the body is absent, so no other
field of the original series is touched by this step. -/
theorem future_truncation_patch_only_recurrence (cal : Calendar) (args : UpdateEventArgs)
    (fsd : DateTime) (ev : GEvent) (rules : List String)
    (hfsd : args.futureStartDate = Option.some fsd)
    (hget : cal.getResult args.calendarId args.eventId = Except.ok ev)
    (hrec : ev.recurrence = Option.some rules) :
    ((updateFutureInstances cal args).1)[1]? =
      Option.some (ApiCall.patch args.calendarId args.eventId
        (futureTruncationBody fsd rules) args.sendUpdates) ∧
    (futureTruncationBody fsd rules).recurrence =
      Option.some (updateRecurrenceWithUntil rules (calculateUntilDate fsd)) ∧
    (futureTruncationBody fsd rules).id = Option.none ∧
    (futureTruncationBody fsd rules).summary = Option.none ∧
    (futureTruncationBody fsd rules).description = Option.none ∧
    (futureTruncationBody fsd rules).location = Option.none ∧
    (futureTruncationBody fsd rules).colorId = Option.none ∧
    (futureTruncationBody fsd rules).start = Option.none ∧
    (futureTruncationBody fsd rules).end_ = Option.none ∧
    (futureTruncationBody fsd rules).attendees = Option.none ∧
    (futureTruncationBody fsd rules).reminders = Option.none ∧
    (futureTruncationBody fsd rules).recurringEventId = Option.none := by
  refine ⟨?_, rfl, rfl, rfl, rfl, rfl, rfl, rfl, rfl, rfl, rfl, rfl⟩
  unfold updateFutureInstances
  rw [hfsd]
  try dsimp only
  rw [hget]
  try dsimp only
  rw [hrec]
  try dsimp only
  split
  · simp
  · try dsimp only
    split <;> simp

/-- Claim C4, witness: the truncation patch of the concrete fixture run. -/
theorem future_truncation_patch_only_recurrence_app :
    ((updateFutureInstances calOk argsFut).1)[1]? =
      Option.some (ApiCall.patch argsFut.calendarId argsFut.eventId
        (futureTruncationBody 200000 ["RRULE:FREQ=WEEKLY;COUNT=20"]) argsFut.sendUpdates) ∧
    (futureTruncationBody 200000 ["RRULE:FREQ=WEEKLY;COUNT=20"]).recurrence =
      Option.some (updateRecurrenceWithUntil ["RRULE:FREQ=WEEKLY;COUNT=20"]
        (calculateUntilDate 200000)) ∧
    (futureTruncationBody 200000 ["RRULE:FREQ=WEEKLY;COUNT=20"]).id = Option.none ∧
    (futureTruncationBody 200000 ["RRULE:FREQ=WEEKLY;COUNT=20"]).summary = Option.none ∧
    (futureTruncationBody 200000 ["RRULE:FREQ=WEEKLY;COUNT=20"]).description = Option.none ∧
    (futureTruncationBody 200000 ["RRULE:FREQ=WEEKLY;COUNT=20"]).location = Option.none ∧
    (futureTruncationBody 200000 ["RRULE:FREQ=WEEKLY;COUNT=20"]).colorId = Option.none ∧
    (futureTruncationBody 200000 ["RRULE:FREQ=WEEKLY;COUNT=20"]).start = Option.none ∧
    (futureTruncationBody 200000 ["RRULE:FREQ=WEEKLY;COUNT=20"]).end_ = Option.none ∧
    (futureTruncationBody 200000 ["RRULE:FREQ=WEEKLY;COUNT=20"]).attendees = Option.none ∧
    (futureTruncationBody 200000 ["RRULE:FREQ=WEEKLY;COUNT=20"]).reminders = Option.none ∧
    (futureTruncationBody 200000 ["RRULE:FREQ=WEEKLY;COUNT=20"]).recurringEventId =
      Option.none :=
  future_truncation_patch_only_recurrence calOk argsFut 200000 origEventFix
    ["RRULE:FREQ=WEEKLY;COUNT=20"] rfl rfl rfl

/-- Claim C5: for every command with modificationScope `future` whose base
object parse succeeded, validation fails if and only if `futureStartDate` is
absent or not strictly later than the clock read at validation. -/
theorem future_scope_validation_iff (now : DateTime) (r : RawUpdateEventArgs)
    (h : r.modificationScope = Option.some ModificationScope.future) :
    validationRejects now r = true ↔
      (r.futureStartDate = Option.none ∨
       ∃ f, r.futureStartDate = Option.some f ∧ f ≤ now) := by
  rw [validationRejects_iff, refineSingleScope_false_iff, refineFutureScope_false_iff,
    refineFutureBound_false_iff]
  have hscope : (applyUpdateDefaults r).modificationScope = ModificationScope.future := by
    simp [applyUpdateDefaults, h]
  have hfsd : (applyUpdateDefaults r).futureStartDate = r.futureStartDate := rfl
  rw [hscope, hfsd]
  simp

/-- Claim C5, witness: a future-scope request without `futureStartDate` is
rejected. -/
theorem future_scope_validation_iff_app : validationRejects 0 rawFutureMissing = true :=
  (future_scope_validation_iff 0 rawFutureMissing rfl).mpr (Or.inl rfl)

/-- Claim C6, counterexample: a single-scope command whose base fields are
well-formed and whose `originalStartTime` is present is nevertheless rejected
when it carries a `futureStartDate` that is not in the future (the third
refinement applies regardless of scope) — so validation failure is not
equivalent to `originalStartTime` being absent. -/
theorem single_scope_validation_cex :
    rawSingleStale.modificationScope = Option.some ModificationScope.single ∧
    ¬ (validationRejects 20 rawSingleStale = true ↔
        rawSingleStale.originalStartTime = Option.none) :=
  ⟨rfl, by decide⟩

/-- Claim C6, amended: for every command with modificationScope `single` whose
base object parse succeeded, validation fails if and only if
`originalStartTime` is absent or a supplied `futureStartDate` is not strictly
later than the clock read at validation. -/
theorem single_scope_validation_iff (now : DateTime) (r : RawUpdateEventArgs)
    (h : r.modificationScope = Option.some ModificationScope.single) :
    validationRejects now r = true ↔
      (r.originalStartTime = Option.none ∨
       ∃ f, r.futureStartDate = Option.some f ∧ f ≤ now) := by
  rw [validationRejects_iff, refineSingleScope_false_iff, refineFutureScope_false_iff,
    refineFutureBound_false_iff]
  have hscope : (applyUpdateDefaults r).modificationScope = ModificationScope.single := by
    simp [applyUpdateDefaults, h]
  have hfsd : (applyUpdateDefaults r).futureStartDate = r.futureStartDate := rfl
  have host : (applyUpdateDefaults r).originalStartTime = r.originalStartTime := rfl
  rw [hscope, hfsd, host]
  simp

/-- Claim C6, witness: a single-scope request without `originalStartTime` is
rejected. -/
theorem single_scope_validation_iff_app : validationRejects 0 rawSingleMissing = true :=
  (single_scope_validation_iff 0 rawSingleMissing rfl).mpr (Or.inl rfl)

/-- Claim C7, counterexample: in the future-scope sequence the first call, the
fetch of the original event, is issued without any sendUpdates parameter even
though the caller supplied one — so `sendUpdates` is not passed through to
every underlying service call of the operation. -/
theorem sendUpdates_fetch_cex :
    argsFut.sendUpdates = Option.some SendUpdates.all ∧
    ((updateFutureInstances calOk argsFut).1)[0]? =
      Option.some (ApiCall.get "primary" "ev1") ∧
    (ApiCall.get "primary" "ev1").sendUpdatesParam ≠ argsFut.sendUpdates :=
  ⟨rfl, rfl, by decide⟩

/-- Claim C7, amended: the caller-supplied `sendUpdates` value is passed
through unmodified to every mutating service call (each patch and each
insert) issued in any of the three scope branches; the read-only fetch of the
future branch is issued without it. -/
theorem sendUpdates_passthrough_mutating (cal : Calendar) (t : EventType)
    (args : UpdateEventArgs) (c : ApiCall)
    (hc : c ∈ (updateEventWithScope cal t args).1) (hm : c.isMutating = true) :
    c.sendUpdatesParam = args.sendUpdates := by
  unfold updateEventWithScope at hc
  split at hc
  · simp at hc
  · split at hc
    · exact updateSingleInstance_sendUpdates cal args c hc hm
    · exact updateAllInstances_sendUpdates cal args c hc hm
    · exact updateFutureInstances_sendUpdates cal args c hc hm

/-- Claim C7, witness: the all-scope patch of the fixture run carries the
caller's `externalOnly` setting. -/
theorem sendUpdates_passthrough_mutating_app :
    (ApiCall.patch "primary" "ev1" (buildUpdateRequestBody argsAllW)
      (Option.some SendUpdates.externalOnly)).sendUpdatesParam = argsAllW.sendUpdates :=
  sendUpdates_passthrough_mutating calOk EventType.recurring argsAllW
    (ApiCall.patch "primary" "ev1" (buildUpdateRequestBody argsAllW)
      (Option.some SendUpdates.externalOnly))
    (by decide) rfl

/-- Claim C8: when a caller omits `modificationScope`, validation defaults it
to `all`, and the handler processes the request as the all-instances branch —
one partial-update patch addressed at the event identifier as given, whatever
the classified event type. -/
theorem omitted_scope_defaults_to_all (now : DateTime) (r : RawUpdateEventArgs)
    (d : UpdateEventArgs) (cal : Calendar) (t : EventType)
    (hscope : r.modificationScope = Option.none)
    (hok : UpdateEventArgumentsSchema now r = Except.ok d) :
    d.modificationScope = ModificationScope.all ∧
    d.eventId = r.eventId ∧ d.calendarId = r.calendarId ∧
    updateEventWithScope cal t d = updateAllInstances cal d ∧
    (updateEventWithScope cal t d).1 =
      [ApiCall.patch d.calendarId d.eventId (buildUpdateRequestBody d) d.sendUpdates] := by
  obtain ⟨hd, -, -, -⟩ := (updateSchema_ok_iff now r d).mp hok
  have hall : d.modificationScope = ModificationScope.all := by
    rw [← hd]
    simp [applyUpdateDefaults, hscope]
  have heid : d.eventId = r.eventId := by rw [← hd]; rfl
  have hcid : d.calendarId = r.calendarId := by rw [← hd]; rfl
  have hdisp : updateEventWithScope cal t d = updateAllInstances cal d := by
    unfold updateEventWithScope
    rw [if_neg (by simp [hall])]
    rw [hall]
  refine ⟨hall, heid, hcid, hdisp, ?_⟩
  rw [hdisp]
  unfold updateAllInstances
  try dsimp only
  split <;> rfl

/-- Claim C8, witness: the scope-omitting fixture request parses with scope
`all` and runs as one patch at the given identifiers, here against a target
classified non-recurring. -/
theorem omitted_scope_defaults_to_all_app :
    (applyUpdateDefaults rawDefaultScope).modificationScope = ModificationScope.all ∧
    (applyUpdateDefaults rawDefaultScope).eventId = rawDefaultScope.eventId ∧
    (applyUpdateDefaults rawDefaultScope).calendarId = rawDefaultScope.calendarId ∧
    updateEventWithScope calOk EventType.single (applyUpdateDefaults rawDefaultScope) =
      updateAllInstances calOk (applyUpdateDefaults rawDefaultScope) ∧
    (updateEventWithScope calOk EventType.single (applyUpdateDefaults rawDefaultScope)).1 =
      [ApiCall.patch (applyUpdateDefaults rawDefaultScope).calendarId
        (applyUpdateDefaults rawDefaultScope).eventId
        (buildUpdateRequestBody (applyUpdateDefaults rawDefaultScope))
        (applyUpdateDefaults rawDefaultScope).sendUpdates] :=
  omitted_scope_defaults_to_all 0 rawDefaultScope (applyUpdateDefaults rawDefaultScope)
    calOk EventType.single rfl rfl

/-- Claim C9: the future-dated bound check applies whenever `futureStartDate`
is present, regardless of modificationScope — any request carrying a
`futureStartDate` not strictly later than the validation clock is rejected. -/
theorem future_bound_applies_any_scope (now : DateTime) (r : RawUpdateEventArgs)
    (f : DateTime) (hf : r.futureStartDate = Option.some f) (hle : f ≤ now) :
    validationRejects now r = true := by
  rw [validationRejects_iff]
  exact Or.inr (Or.inr ((refineFutureBound_false_iff now (applyUpdateDefaults r)).mpr
    ⟨f, hf, hle⟩))

/-- Claim C9, witness: an all-scope request with a stale `futureStartDate`
(instant 10, clock 20) is rejected. -/
theorem future_bound_applies_any_scope_app : validationRejects 20 rawAllStale = true :=
  future_bound_applies_any_scope 20 rawAllStale 10 rfl (by decide)

/-- Claim C10: on any schema-validated input, the handler's defensive error
branches for a missing `originalStartTime` (single scope) and a missing
`futureStartDate` (future scope) are unreachable: the run never results in
either error. -/
theorem defensive_branches_unreachable (now : DateTime) (r : RawUpdateEventArgs)
    (d : UpdateEventArgs) (cal : Calendar) (t : EventType)
    (hok : UpdateEventArgumentsSchema now r = Except.ok d) :
    (updateEventWithScope cal t d).2 ≠ Except.error UpdateError.missingOriginalTime ∧
    (updateEventWithScope cal t d).2 ≠ Except.error UpdateError.missingFutureDate := by
  obtain ⟨hd, h1, h2, -⟩ := (updateSchema_ok_iff now r d).mp hok
  rw [hd] at h1 h2
  unfold updateEventWithScope
  by_cases hg : d.modificationScope ≠ ModificationScope.all ∧ t ≠ EventType.recurring
  · rw [if_pos hg]
    exact ⟨by simp, by simp⟩
  · rw [if_neg hg]
    cases hs : d.modificationScope
    · -- single
      have hne : d.originalStartTime ≠ Option.none := by
        intro hn
        rw [(refineSingleScope_false_iff d).mpr ⟨hs, hn⟩] at h1
        exact Bool.false_ne_true h1
      obtain ⟨ost, host⟩ := Option.ne_none_iff_exists'.mp hne
      try dsimp only
      exact ⟨updateSingleInstance_some_ne_missing cal d ost host,
             updateSingleInstance_snd_ne_missingFuture cal d⟩
    · -- all
      try dsimp only
      exact updateAllInstances_snd_ne_missing cal d
    · -- future
      have hne : d.futureStartDate ≠ Option.none := by
        intro hn
        rw [(refineFutureScope_false_iff d).mpr ⟨hs, hn⟩] at h2
        exact Bool.false_ne_true h2
      obtain ⟨fsd, hfsd⟩ := Option.ne_none_iff_exists'.mp hne
      try dsimp only
      exact ⟨updateFutureInstances_snd_ne_missingOriginal cal d,
             updateFutureInstances_some_ne_missing cal d fsd hfsd⟩

/-- Claim C10, witness: the theorem applied to the validated fixture request. -/
theorem defensive_branches_unreachable_app :
    (updateEventWithScope calOk EventType.single (applyUpdateDefaults rawDefaultScope)).2 ≠
      Except.error UpdateError.missingOriginalTime ∧
    (updateEventWithScope calOk EventType.single (applyUpdateDefaults rawDefaultScope)).2 ≠
      Except.error UpdateError.missingFutureDate :=
  defensive_branches_unreachable 0 rawDefaultScope (applyUpdateDefaults rawDefaultScope)
    calOk EventType.single rfl
